import Mathlib

/-!
Verification of the heat-risk dashboard (streamlit-app/utils.py and
streamlit-app/app.py) through a shallow embedding.

Pure Python string manipulation is embedded as functions on `String` /
`List Char`; pandas/geopandas dataframes become explicit record types;
operations that can raise (pandas selections through `.values[0]`,
column access) return `Except`; dataframe and Python-list objects that
the source mutates in place live in an explicit heap so that in-place
mutation versus copy-on-write is observable.  Geometry itself is opaque
(an integer identifier): the claims under verification depend on which
geometries are looked up and placed on the map, never on coordinate
arithmetic.
-/

namespace HeatDashboard

/-! ### Python string primitives -/

/-- Python str.replace: replace every non-overlapping occurrence of old
by new, scanning left to right.  Fuel-based structural recursion; fuel
equal to the length of the string suffices because every step consumes
at least one character. -/
def replaceFuel : ℕ → List Char → List Char → List Char → List Char
  | 0, s, _, _ => s
  | fuel + 1, s, old, new =>
    match s with
    | [] => []
    | c :: rest =>
      if old ≠ [] ∧ old.isPrefixOf (c :: rest) then
        new ++ replaceFuel fuel ((c :: rest).drop old.length) old new
      else
        c :: replaceFuel fuel rest old new

/-- Python str.replace on strings. -/
def pyReplace (s old new : String) : String :=
  String.mk (replaceFuel s.data.length s.data old.data new.data)

/-- Python str.startswith. -/
def startswith (s pfx : String) : Bool := pfx.data.isPrefixOf s.data

/-- Python str.title on ASCII text, character by character: a letter is
upper-cased when the previous character is not a letter and lower-cased
otherwise; non-letters pass through. -/
def titleAux : Bool → List Char → List Char
  | _, [] => []
  | prevAlpha, c :: rest =>
    (if c.isAlpha then (if prevAlpha then c.toLower else c.toUpper) else c)
      :: titleAux c.isAlpha rest

/-- Python str.title on strings. -/
def pyTitle (s : String) : String := String.mk (titleAux false s.data)

/-! ### utils.generate_column_mapping (utils.py lines 161-177) -/

/-- utils.generate_column_mapping: a dict comprehension over the columns
that start with the prefix, embedded as an ordered association list.
The source's default arguments are pfx = "weighted_",
rep = "weighted " (prefix replaced by the word followed by a space, not
stripped) and title_case = true; callers here always pass them
explicitly. -/
def generate_column_mapping (columns : List String) (pfx rep : String)
    (title_case : Bool) : List (String × String) :=
  if title_case then
    (columns.filter (fun col => startswith col pfx)).map
      (fun col => (col, pyTitle (pyReplace (pyReplace col pfx rep) "_" " ")))
  else
    (columns.filter (fun col => startswith col pfx)).map
      (fun col => (col, pyReplace (pyReplace col pfx rep) "_" " "))

/-- The display-name formula of the (amended) specification: the prefix
weighted_ is replaced by the word weighted followed by a space,
remaining underscores become spaces, and the result is title-cased. -/
def displayNameSpec (col : String) : String :=
  pyTitle (pyReplace (pyReplace col "weighted_" "weighted ") "_" " ")

/-! ### utils.move_column_to_front (utils.py lines 179-193) -/

/-- A heap of Python list objects, addressed by index, so that in-place
mutation of a list object is observable. -/
structure PyListHeap where
  lists : List (List String)
deriving DecidableEq

/-- Dereference a Python list object. -/
def readList (σ : PyListHeap) (r : ℕ) : List String := σ.lists.getD r []

/-- utils.move_column_to_front: when the column is present,
columns.remove deletes its first occurrence and columns.insert(0, ...)
prepends it, both mutating the list object in place; the function then
returns the very same object. -/
def move_column_to_front (σ : PyListHeap) (columns : ℕ)
    (column_name : String) : PyListHeap × ℕ :=
  if column_name ∈ readList σ columns then
    (⟨σ.lists.set columns
        (column_name :: (readList σ columns).erase column_name)⟩, columns)
  else
    (σ, columns)

/-! ### utils.get_hhi_indicator_description (utils.py lines 208-215) -/

/-- utils.get_hhi_indicator_description: the dictionary dataframe is
modelled by its two relevant columns, a list of rows
(weighted_2024_VARIABLE_NAME, 2024_DESCRIPTION).  The source selects
the rows whose variable name equals the indicator and takes
.values[0], which raises IndexError when no row matches; that
IndexError is caught and the fixed placeholder returned. -/
def get_hhi_indicator_description (hhi_desc_df : List (String × String))
    (indicator_name : String) : String :=
  match (hhi_desc_df.filter (fun row => row.1 == indicator_name)).map Prod.snd with
  | [] => "No description available for this indicator."
  | d :: _ => d

/-! ### utils.load_data, remote resource key (utils.py lines 64-68) -/

/-- The f-string of utils.load_data line 68: spaces of the day label
become plus signs and the formatted current date is interpolated.  The
current-date string stands for datetime.now(tz).strftime("%Y%m%d") with
tz = America/New_York, which is outside the embedding. -/
def build_data_url (selected_day : String) (current_date : String) : String :=
  "https://heat-risk-dashboard.s3.amazonaws.com/heat_risk_analysis_" ++
    pyReplace selected_day " " "+" ++ "_" ++ current_date ++ ".geoparquet"

/-! ### The main dataset and the dataframe heap -/

/-- One row of the main dataset: the weighted indicator columns as a
name-value association, the NWS heat-risk raster value, and an opaque
geometry identifier. -/
structure HeatRiskRecord where
  attrs : List (String × ℚ)
  raster_value : ℤ
  geom : ℤ
deriving DecidableEq

/-- A GeoDataFrame of heat-risk records: its rows, the optional added
highlight column, and whether its CRS is geographic. -/
structure GeoDataset where
  rows : List HeatRiskRecord
  highlightCol : Option (List Bool)
  crs_geographic : Bool
deriving DecidableEq

/-- A heap of dataframe objects, addressed by index, so that the
difference between mutating a frame and mutating a copy is
observable. -/
structure PdState where
  frames : List GeoDataset
deriving DecidableEq

/-- The default for a dangling frame reference (never used by the
claims, which only dereference valid references). -/
def emptyFrame : GeoDataset := ⟨[], none, true⟩

/-- Dereference a dataframe object. -/
def readFrame (σ : PdState) (r : ℕ) : GeoDataset := σ.frames.getD r emptyFrame

/-- df.copy(): allocate a fresh frame with the same contents and return
its reference. -/
def copyFrame (σ : PdState) (r : ℕ) : PdState × ℕ :=
  (⟨σ.frames ++ [readFrame σ r]⟩, σ.frames.length)

/-- Column assignment df['highlight'] = flags: mutates the frame object
in place. -/
def setHighlight (σ : PdState) (r : ℕ) (flags : List Bool) : PdState :=
  ⟨σ.frames.set r { readFrame σ r with highlightCol := some flags }⟩

/-- df.to_crs(epsg=4326): returns a new frame whose CRS is geographic
(coordinate arithmetic is outside the embedding, so rows are
unchanged). -/
def to_crs_frame (σ : PdState) (r : ℕ) : PdState × ℕ :=
  (⟨σ.frames ++ [{ readFrame σ r with crs_geographic := true }]⟩,
    σ.frames.length)

/-- Column access df[col] on the main dataset: the column as a list of
values, or a KeyError when some row lacks the column. -/
def colValues (df : GeoDataset) (c : String) : Except String (List ℚ) :=
  match df.rows.mapM (fun r => r.attrs.lookup c) with
  | some vs => Except.ok vs
  | none => Except.error "KeyError"

/-- A pandas selection followed by .values[0]: the first element, or an
IndexError when the selection is empty. -/
def valuesFirst {α : Type} : List α → Except String α
  | [] => Except.error "IndexError"
  | x :: _ => Except.ok x

/-- np.percentile with the default linear interpolation, at an integer
percentile rank q (the app's slider is an integer 0..100): with s the
values sorted ascending and n their number, the rank position is
(n-1)*q/100; writing k = (n-1)*q, the result interpolates between
s[k/100] and the following element with fractional weight
(k mod 100)/100. -/
def npPercentile (a : List ℚ) (q : ℕ) : ℚ :=
  let s := a.insertionSort (· ≤ ·)
  let n := s.length
  if n = 0 then 0
  else
    let k := (n - 1) * q
    let lo := s.getD (k / 100) 0
    let hi := s.getD (min (k / 100 + 1) (n - 1)) 0
    lo + ((k % 100 : ℕ) : ℚ) * (hi - lo) / 100

/-! ### Boundary tables and the folium map object -/

/-- A row of the state or county boundary table: NAME, STATE_NAME (only
meaningful for counties) and an opaque geometry. -/
structure BoundaryRow where
  name : String
  state_name : String
  geometry : ℤ
deriving DecidableEq

/-- The map centre chosen by create_map.  Centroid arithmetic is
opaque; the constructor records which branch of the priority chain
supplied the centre. -/
inductive MapCenter
  | dataCentroid
  | zipCentroid (g : ℤ)
  | countyCentroid (g : ℤ)
  | stateCentroid (g : ℤ)
deriving DecidableEq

/-- A folium layer added to the map, in insertion order. -/
inductive MapLayer
  | stateBoundary (g : ℤ)
  | countyBoundary (g : ℤ)
  | zipBoundary (g : ℤ)
  | highlightLayer (df : GeoDataset)
  | legend
deriving DecidableEq

/-- The folium map built by create_map. -/
structure FoliumMap where
  center : MapCenter
  zoom : ℕ
  layers : List MapLayer
deriving DecidableEq

/-! ### utils.create_map (utils.py lines 234-343) -/

/-- utils.create_map.  The dataframe heap is threaded through and also
returned when an exception escapes, so that mutation (or not) of the
caller's frame is observable in every outcome.  The Except value
carries the list of st.warning messages together with the returned map
(none on the early-warning return for empty data); an Except.error is a
Python exception escaping the function. -/
def create_map (σ : PdState) (layer1_with_weighted_values : ℕ)
    (selected_hhi_indicator : String) (heat_threshold : List ℤ)
    (heat_health_index_threshold : ℕ) (selected_state selected_county : String)
    (states counties : List BoundaryRow) (zipcode_boundary : Option ℤ) :
    PdState × Except String (List String × Option FoliumMap) :=
  let df := readFrame σ layer1_with_weighted_values
  if df.rows.isEmpty then
    (σ, Except.ok (["The data is empty. Please check your inputs."], none))
  else
    match colValues df selected_hhi_indicator with
    | Except.error e => (σ, Except.error e)
    | Except.ok vals =>
      let percentile_threshold := npPercentile vals heat_health_index_threshold
      let copied := copyFrame σ layer1_with_weighted_values
      let σ1 := copied.1
      let ha := copied.2
      match colValues (readFrame σ1 ha) selected_hhi_indicator with
      | Except.error e => (σ1, Except.error e)
      | Except.ok haVals =>
        let flags := List.zipWith
          (fun v r => decide (percentile_threshold ≤ v) &&
            decide (r.raster_value ∈ heat_threshold))
          haVals (readFrame σ1 ha).rows
        let σ2 := setHighlight σ1 ha flags
        let reproj :=
          if (readFrame σ2 ha).crs_geographic then (σ2, ha)
          else to_crs_frame σ2 ha
        let σ3 := reproj.1
        let ha2 := reproj.2
        let stateLookup : Except String (Option ℤ) :=
          if selected_state ≠ "Select a State" then
            Except.map some (valuesFirst
              ((states.filter (fun s => s.name == selected_state)).map
                BoundaryRow.geometry))
          else Except.ok none
        match stateLookup with
        | Except.error e => (σ3, Except.error e)
        | Except.ok selected_state_geom =>
          let countyLookup : Except String (Option ℤ) :=
            if selected_county ≠ "Select a County" ∧ selected_state_geom.isSome then
              Except.map some (valuesFirst
                ((counties.filter (fun c =>
                  c.state_name == selected_state && c.name == selected_county)).map
                  BoundaryRow.geometry))
            else Except.ok none
          match countyLookup with
          | Except.error e => (σ3, Except.error e)
          | Except.ok selected_county_geom =>
            let centerZoom : MapCenter × ℕ :=
              match zipcode_boundary with
              | some z => (MapCenter.zipCentroid z, 13)
              | none =>
                match selected_county_geom with
                | some g => (MapCenter.countyCentroid g, 8)
                | none =>
                  match selected_state_geom with
                  | some g => (MapCenter.stateCentroid g, 6)
                  | none => (MapCenter.dataCentroid, 4)
            let layers : List MapLayer :=
              (match selected_state_geom with
               | some g => [MapLayer.stateBoundary g]
               | none => []) ++
              (match selected_county_geom with
               | some g => [MapLayer.countyBoundary g]
               | none => []) ++
              (match zipcode_boundary with
               | some z => [MapLayer.zipBoundary z]
               | none => []) ++
              [MapLayer.highlightLayer (readFrame σ3 ha2), MapLayer.legend]
            (σ3, Except.ok ([], some ⟨centerZoom.1, centerZoom.2, layers⟩))

/-- The highlight-flag column recorded on the map's highlight layer,
when the call produced a map. -/
def mapFlags (e : Except String (List String × Option FoliumMap)) :
    Option (List Bool) :=
  match e with
  | Except.ok (_, some m) =>
    (m.layers.filterMap (fun l =>
      match l with
      | MapLayer.highlightLayer df => df.highlightCol
      | _ => none)).head?
  | _ => none

/-! ### app.py geographic filter (app.py lines 100-148) -/

/-- Outcome of the geographic-filter block of app.py: the st.warning
messages issued, the resulting filtered_data rows, the summary title
suffix when one was assigned, and whether the page fell through to the
prompt asking to select a state or county. -/
structure FilterResult where
  warnings : List String
  filtered : List HeatRiskRecord
  title_suffix : Option String
  prompt : Bool
deriving DecidableEq

/-- app.py lines 100-148: filtered_data is initialised to an empty
dataframe (line 101); the branch structure of lines 129-148 then
optionally reassigns it.  Spatial intersection is abstract:
intersects r g stands for r.geometry.intersects(g). -/
def computeFilteredData (layer1 : List HeatRiskRecord)
    (selected_state selected_county : String)
    (states counties : List BoundaryRow)
    (intersects : HeatRiskRecord → ℤ → Bool) : FilterResult :=
  if selected_state ≠ "Select a State" ∨ selected_county ≠ "Select a County" then
    if selected_county ≠ "Select a County" ∧ selected_state ≠ "Select a State" then
      let geoms := (counties.filter (fun c =>
        c.state_name == selected_state && c.name == selected_county)).map
        BoundaryRow.geometry
      if 0 < geoms.length then
        ⟨[], layer1.filter (fun r => intersects r (geoms.headD 0)),
          some (" - " ++ selected_state ++ ", " ++ selected_county), false⟩
      else
        ⟨["Could not find the geometry for the selected county."], [], none, false⟩
    else if selected_state ≠ "Select a State" then
      let geoms := (states.filter (fun s => s.name == selected_state)).map
        BoundaryRow.geometry
      if 0 < geoms.length then
        ⟨[], layer1.filter (fun r => intersects r (geoms.headD 0)),
          some (" - " ++ selected_state), false⟩
      else
        ⟨["Could not find the geometry for the selected state."], [], none, false⟩
    else
      ⟨[], layer1, some "", false⟩
  else
    ⟨[], [], none, true⟩

/-! ### Concrete data used by counterexamples and witnesses -/

/-- Five records matching the specification's worked example: indicator
values 1..5 with raster values 0,1,2,2,2. -/
def demoRows : List HeatRiskRecord :=
  [⟨[("weighted_OVERALL_SCORE", 1)], 0, 10⟩,
   ⟨[("weighted_OVERALL_SCORE", 2)], 1, 11⟩,
   ⟨[("weighted_OVERALL_SCORE", 3)], 2, 12⟩,
   ⟨[("weighted_OVERALL_SCORE", 4)], 2, 13⟩,
   ⟨[("weighted_OVERALL_SCORE", 5)], 2, 14⟩]

/-- The demo rows as a single-frame heap. -/
def demoHeap : PdState := ⟨[⟨demoRows, none, true⟩]⟩

/-! ### Heap dereference lemmas -/

theorem readFrame_append_lt (σ : PdState) (x : GeoDataset) (r : ℕ)
    (h : r < σ.frames.length) :
    readFrame ⟨σ.frames ++ [x]⟩ r = readFrame σ r := by
  simp [readFrame, List.getElem?_append_left h]

theorem readFrame_append_self (σ : PdState) (x : GeoDataset) :
    readFrame ⟨σ.frames ++ [x]⟩ σ.frames.length = x := by
  simp [readFrame, List.getD_append_right _ _ _ _ (Nat.le_refl _)]

theorem readFrame_set_ne (σ : PdState) (j r : ℕ) (x : GeoDataset)
    (h : r ≠ j) :
    readFrame ⟨σ.frames.set j x⟩ r = readFrame σ r := by
  simp [readFrame, List.getElem?_set_ne (Ne.symm h)]

theorem readFrame_set_self (σ : PdState) (j : ℕ) (x : GeoDataset)
    (h : j < σ.frames.length) :
    readFrame ⟨σ.frames.set j x⟩ j = x := by
  simp [readFrame, List.getElem?_set_self h]

theorem readFrame_copy (σ : PdState) (r : ℕ) :
    readFrame (copyFrame σ r).1 (copyFrame σ r).2 = readFrame σ r :=
  readFrame_append_self σ _

theorem read_setHighlight_self (σ : PdState) (j : ℕ) (flags : List Bool)
    (h : j < σ.frames.length) :
    readFrame (setHighlight σ j flags) j =
      { readFrame σ j with highlightCol := some flags } :=
  readFrame_set_self σ j _ h

theorem read_setHighlight_copy (σ : PdState) (r : ℕ) (flags : List Bool) :
    readFrame (setHighlight (copyFrame σ r).1 (copyFrame σ r).2 flags)
      (copyFrame σ r).2 =
      { readFrame σ r with highlightCol := some flags } := by
  rw [read_setHighlight_self _ _ _ (by simp [copyFrame]), readFrame_copy]

theorem read_to_crs (σ : PdState) (j : ℕ) :
    readFrame (to_crs_frame σ j).1 (to_crs_frame σ j).2 =
      { readFrame σ j with crs_geographic := true } :=
  readFrame_append_self σ _

theorem read_copy_pres (σ : PdState) (r j : ℕ) (h : j < σ.frames.length) :
    readFrame (copyFrame σ r).1 j = readFrame σ j :=
  readFrame_append_lt σ _ j h

theorem read_setHighlight_pres (σ : PdState) (i j : ℕ) (flags : List Bool)
    (h : j ≠ i) :
    readFrame (setHighlight σ i flags) j = readFrame σ j :=
  readFrame_set_ne σ i j _ h

theorem read_to_crs_pres (σ : PdState) (i j : ℕ) (h : j < σ.frames.length) :
    readFrame (to_crs_frame σ i).1 j = readFrame σ j :=
  readFrame_append_lt σ _ j h

/-- The success path of create_map when no state, county or ZIP Code is
selected: the map is built with the continental view, and its highlight
layer carries the copied dataset with the highlight column computed
from the percentile threshold over the whole dataset and the accepted
risk levels. -/
theorem create_map_noGeo (σ : PdState) (r : ℕ) (sel : String)
    (heat_threshold : List ℤ) (q : ℕ) (states counties : List BoundaryRow)
    (vals : List ℚ)
    (hne : (readFrame σ r).rows.isEmpty = false)
    (hvals : colValues (readFrame σ r) sel = Except.ok vals) :
    (create_map σ r sel heat_threshold q "Select a State" "Select a County"
      states counties none).2 =
      Except.ok ([], some ⟨MapCenter.dataCentroid, 4,
        [MapLayer.highlightLayer
          ⟨(readFrame σ r).rows,
            some (List.zipWith (fun v rec =>
              decide (npPercentile vals q ≤ v) &&
              decide (rec.raster_value ∈ heat_threshold)) vals
              (readFrame σ r).rows),
            true⟩,
         MapLayer.legend]⟩) := by
  by_cases hcrs : (readFrame σ r).crs_geographic
  · simp [create_map, hne, hvals, readFrame_copy, read_setHighlight_copy,
      read_to_crs, hcrs]
  · simp [create_map, hne, hvals, readFrame_copy, read_setHighlight_copy,
      read_to_crs, hcrs]

/-- The exception path of create_map: a selected state with no matching
boundary row, or a selected county whose state+county combination has
no matching boundary row, makes the .values[0] selection raise
IndexError, which escapes the function. -/
theorem create_map_missing_boundary (σ : PdState) (r : ℕ) (sel : String)
    (heat_threshold : List ℤ) (q : ℕ) (selected_state selected_county : String)
    (states counties : List BoundaryRow) (zipb : Option ℤ) (vals : List ℚ)
    (hne : (readFrame σ r).rows.isEmpty = false)
    (hvals : colValues (readFrame σ r) sel = Except.ok vals)
    (hst : selected_state ≠ "Select a State")
    (hmiss : states.filter (fun s => s.name == selected_state) = [] ∨
      (selected_county ≠ "Select a County" ∧
        counties.filter (fun c =>
          c.state_name == selected_state && c.name == selected_county) = [])) :
    (create_map σ r sel heat_threshold q selected_state selected_county
      states counties zipb).2 = Except.error "IndexError" := by
  rcases hmiss with hmiss | ⟨hcty, hcmiss⟩
  · simp [create_map, hne, hvals, readFrame_copy, read_setHighlight_copy,
      hst, hmiss, valuesFirst, Except.map]
  · cases hsf : states.filter (fun s => s.name == selected_state) with
    | nil =>
      simp [create_map, hne, hvals, readFrame_copy, read_setHighlight_copy,
        hst, hsf, valuesFirst, Except.map]
    | cons g gs =>
      simp [create_map, hne, hvals, readFrame_copy, read_setHighlight_copy,
        hst, hsf, hcty, hcmiss, valuesFirst, Except.map]

/-! ### C1: generate_column_mapping -/

/-- C1 counterexample: with the source's default arguments the prefix
weighted_ is replaced by the word weighted plus a space, not stripped,
so weighted_OVERALL_SCORE maps to "Weighted Overall Score" and not to
the claimed "Overall Score". -/
theorem C1_counterexample :
    List.lookup "weighted_OVERALL_SCORE"
      (generate_column_mapping
        ["weighted_OVERALL_SCORE", "weighted_P_AGE65", "other_col"]
        "weighted_" "weighted " true) = some "Weighted Overall Score" ∧
    ("Weighted Overall Score" : String) ≠ "Overall Score" := by
  constructor
  · rfl
  · decide

/-- C1 amended: with default arguments, generate_column_mapping keeps
exactly the columns starting with weighted_, in order, and maps each to
the display name obtained by replacing the prefix weighted_ with
"weighted " (keeping the word), converting underscores to spaces and
title-casing; on the worked example it yields Weighted Overall Score
and Weighted P Age65, and excludes other_col. -/
theorem C1_amended_mapping (columns : List String) :
    generate_column_mapping columns "weighted_" "weighted " true =
      (columns.filter (fun col => startswith col "weighted_")).map
        (fun col => (col, displayNameSpec col)) ∧
    generate_column_mapping
        ["weighted_OVERALL_SCORE", "weighted_P_AGE65", "other_col"]
        "weighted_" "weighted " true =
      [("weighted_OVERALL_SCORE", "Weighted Overall Score"),
       ("weighted_P_AGE65", "Weighted P Age65")] := by
  constructor
  · rfl
  · rfl

/-! ### C2: percentile highlight rule -/

/-- C2 amended: in create_map a record is flagged highlighted iff its
indicator value is at least the np.percentile threshold computed over
the entire dataset and its raster_value is in the accepted risk-level
set; on the worked example the 60th percentile of 1..5 under numpy's
linear interpolation is 3.4 (not 3), so exactly the records with
indicator value at least 3.4 and raster_value 2 are flagged. -/
theorem C2_highlight_rule (σ : PdState) (r : ℕ) (sel : String)
    (heat_threshold : List ℤ) (q : ℕ) (states counties : List BoundaryRow)
    (vals : List ℚ)
    (hne : (readFrame σ r).rows.isEmpty = false)
    (hvals : colValues (readFrame σ r) sel = Except.ok vals) :
    mapFlags (create_map σ r sel heat_threshold q "Select a State"
      "Select a County" states counties none).2 =
      some (List.zipWith (fun v rec =>
        decide (npPercentile vals q ≤ v) &&
        decide (rec.raster_value ∈ heat_threshold)) vals
        (readFrame σ r).rows) := by
  rw [create_map_noGeo σ r sel heat_threshold q states counties vals hne hvals]
  simp [mapFlags]

/-- C2 witness: on indicator values 1..5 with risk levels 0,1,2,2,2,
percentile rank 60 and accepted risk levels containing exactly 2, the
computed flags are false, false, false, true, true. -/
theorem C2_highlight_rule_witness :
    mapFlags (create_map demoHeap 0 "weighted_OVERALL_SCORE" [2] 60
      "Select a State" "Select a County" [] [] none).2 =
      some [false, false, false, true, true] := by
  have hp : npPercentile [1, 2, 3, 4, 5] 60 = 17/5 := by
    norm_num [npPercentile]
  have h := C2_highlight_rule demoHeap 0 "weighted_OVERALL_SCORE" [2] 60 [] []
    [1, 2, 3, 4, 5] rfl rfl
  rw [h]
  norm_num [demoHeap, demoRows, readFrame, hp]

/-- C2 counterexample: the claim's flag assignment (highlight iff
indicator at least 3 and raster_value 2, after the claimed threshold
value 3) differs from the computed one: the record with indicator 3 and
raster_value 2 is not flagged, because the actual percentile threshold
is 3.4. -/
theorem C2_counterexample :
    mapFlags (create_map demoHeap 0 "weighted_OVERALL_SCORE" [2] 60
      "Select a State" "Select a County" [] [] none).2 ≠
      some (demoRows.map (fun rec =>
        decide ((3:ℚ) ≤ (rec.attrs.lookup "weighted_OVERALL_SCORE").getD 0) &&
        decide (rec.raster_value ∈ ([2] : List ℤ)))) := by
  have hp : npPercentile [1, 2, 3, 4, 5] 60 = 17/5 := by
    norm_num [npPercentile]
  have h := create_map_noGeo demoHeap 0 "weighted_OVERALL_SCORE" [2] 60 [] []
    [1, 2, 3, 4, 5] rfl rfl
  rw [h]
  have hrhs : demoRows.map (fun rec =>
      decide ((3:ℚ) ≤ (rec.attrs.lookup "weighted_OVERALL_SCORE").getD 0) &&
      decide (rec.raster_value ∈ ([2] : List ℤ))) =
      [false, false, true, true, true] := by decide
  rw [hrhs]
  norm_num [demoHeap, demoRows, readFrame, mapFlags, hp]

/-! ### C3: missing boundary geometry in create_map -/

/-- C3 counterexample: a selected state absent from the boundary table
makes create_map raise IndexError (the .values[0] selection on an empty
result), so no warning is recorded and no map is produced. -/
theorem C3_counterexample :
    (create_map demoHeap 0 "weighted_OVERALL_SCORE" [2] 60
      "Atlantis" "Select a County" [] [] none).2 =
      Except.error "IndexError" := by
  have h := create_map_missing_boundary demoHeap 0 "weighted_OVERALL_SCORE"
    [2] 60 "Atlantis" "Select a County" [] [] none [1, 2, 3, 4, 5]
    rfl rfl (by decide) (Or.inl rfl)
  exact h

/-- C3 amended: when the selected state, or the selected state+county
combination, has no matching row in the boundary table, create_map does
not warn and does not return a map: the IndexError raised by the empty
.values[0] selection escapes the function. -/
theorem C3_missing_geometry_raises (σ : PdState) (r : ℕ) (sel : String)
    (heat_threshold : List ℤ) (q : ℕ) (selected_state selected_county : String)
    (states counties : List BoundaryRow) (zipb : Option ℤ) (vals : List ℚ)
    (hne : (readFrame σ r).rows.isEmpty = false)
    (hvals : colValues (readFrame σ r) sel = Except.ok vals)
    (hst : selected_state ≠ "Select a State")
    (hmiss : states.filter (fun s => s.name == selected_state) = [] ∨
      (selected_county ≠ "Select a County" ∧
        counties.filter (fun c =>
          c.state_name == selected_state && c.name == selected_county) = [])) :
    (create_map σ r sel heat_threshold q selected_state selected_county
      states counties zipb).2 = Except.error "IndexError" ∧
    mapFlags (create_map σ r sel heat_threshold q selected_state
      selected_county states counties zipb).2 = none := by
  have h := create_map_missing_boundary σ r sel heat_threshold q
    selected_state selected_county states counties zipb vals hne hvals hst hmiss
  exact ⟨h, by rw [h]; rfl⟩

/-- C3 amended witness: a selected state+county combination absent from
the county boundary table while the state itself is present. -/
theorem C3_missing_geometry_raises_witness :
    (create_map demoHeap 0 "weighted_OVERALL_SCORE" [2] 60
      "New York" "Atlantis County" [⟨"New York", "", 7⟩] [] none).2 =
      Except.error "IndexError" ∧
    mapFlags (create_map demoHeap 0 "weighted_OVERALL_SCORE" [2] 60
      "New York" "Atlantis County" [⟨"New York", "", 7⟩] [] none).2 = none :=
  C3_missing_geometry_raises demoHeap 0 "weighted_OVERALL_SCORE" [2] 60
    "New York" "Atlantis County" [⟨"New York", "", 7⟩] [] none [1, 2, 3, 4, 5]
    rfl rfl (by decide) (Or.inr ⟨by decide, rfl⟩)

/-! ### C9: create_map leaves its input dataset unmodified -/

/-- C9: the highlight column is assigned on a copy, so whatever path
create_map takes (including the exception paths), the caller's
dataframe object is unchanged: dereferencing the input reference after
the call yields the frame it held before, with the same rows and
columns. -/
theorem C9_input_unmodified (σ : PdState) (r : ℕ) (sel : String)
    (heat_threshold : List ℤ) (q : ℕ) (st cty : String)
    (states counties : List BoundaryRow) (zipb : Option ℤ)
    (hr : r < σ.frames.length) :
    readFrame (create_map σ r sel heat_threshold q st cty states counties
      zipb).1 r = readFrame σ r := by
  have hcopy : readFrame (copyFrame σ r).1 r = readFrame σ r :=
    read_copy_pres σ r r hr
  have hne2 : r ≠ (copyFrame σ r).2 := by
    simpa [copyFrame] using Nat.ne_of_lt hr
  have hσ2 : ∀ flags,
      readFrame (setHighlight (copyFrame σ r).1 (copyFrame σ r).2 flags) r =
        readFrame σ r :=
    fun flags => (read_setHighlight_pres _ _ _ flags hne2).trans hcopy
  have hlen2 : ∀ flags,
      r < (setHighlight (copyFrame σ r).1 (copyFrame σ r).2 flags).frames.length := by
    intro flags
    have : r < (copyFrame σ r).1.frames.length := by
      simp [copyFrame]
      omega
    simpa [setHighlight] using this
  have hσ3 : ∀ flags i,
      readFrame (to_crs_frame
        (setHighlight (copyFrame σ r).1 (copyFrame σ r).2 flags) i).1 r =
        readFrame σ r :=
    fun flags i => (read_to_crs_pres _ i r (hlen2 flags)).trans (hσ2 flags)
  simp only [create_map]
  split
  · rfl
  · split
    · rfl
    · split
      · exact hcopy
      · split
        · split
          · exact hσ2 _
          · exact hσ3 _ _
        · split
          · split
            · exact hσ2 _
            · exact hσ3 _ _
          · split
            · exact hσ2 _
            · exact hσ3 _ _

/-- C9 witness at a concrete input. -/
theorem C9_input_unmodified_witness :
    readFrame (create_map demoHeap 0 "weighted_OVERALL_SCORE" [2] 60
      "Select a State" "Select a County" [] [] none).1 0 =
      readFrame demoHeap 0 :=
  C9_input_unmodified demoHeap 0 "weighted_OVERALL_SCORE" [2] 60
    "Select a State" "Select a County" [] [] none (by decide)

/-! ### C4: no geographic selection -/

/-- C4 counterexample: with data loaded and neither a state nor a
county selected, filtered_data stays the initial empty dataframe, not
the full dataset. -/
theorem C4_counterexample :
    (computeFilteredData demoRows "Select a State" "Select a County"
      [] [] (fun _ _ => true)).filtered = [] ∧ demoRows ≠ [] := by
  constructor
  · rfl
  · decide

/-- C4 amended: when neither a state nor a county is selected, the
geographic-filter block leaves filtered_data as the initial empty
dataframe and falls through to the prompt asking to select a state or
county; the pass-through of the full dataset does not happen in this
case. -/
theorem C4_amended_empty (layer1 : List HeatRiskRecord)
    (states counties : List BoundaryRow)
    (intersects : HeatRiskRecord → ℤ → Bool) :
    computeFilteredData layer1 "Select a State" "Select a County"
      states counties intersects = ⟨[], [], none, true⟩ := by
  simp [computeFilteredData]

/-! ### C5: missing state+county combination -/

/-- C5: when a state and a county are both selected but no boundary row
matches the state+county combination, the filter block emits the
could-not-find-geometry warning and leaves the result empty; no
exception is raised (the embedding is a total function). -/
theorem C5_missing_county_combination (layer1 : List HeatRiskRecord)
    (selected_state selected_county : String)
    (states counties : List BoundaryRow)
    (intersects : HeatRiskRecord → ℤ → Bool)
    (hst : selected_state ≠ "Select a State")
    (hcty : selected_county ≠ "Select a County")
    (hmiss : counties.filter (fun c =>
      c.state_name == selected_state && c.name == selected_county) = []) :
    computeFilteredData layer1 selected_state selected_county
      states counties intersects =
      ⟨["Could not find the geometry for the selected county."],
        [], none, false⟩ := by
  simp [computeFilteredData, hst, hcty, hmiss]

/-- C5 witness at a concrete input. -/
theorem C5_missing_county_combination_witness :
    computeFilteredData demoRows "New York" "Atlantis County"
      [] [] (fun _ _ => true) =
      ⟨["Could not find the geometry for the selected county."],
        [], none, false⟩ :=
  C5_missing_county_combination demoRows "New York" "Atlantis County"
    [] [] (fun _ _ => true) (by decide) (by decide) rfl

/-! ### C6: empty dataset rejected -/

/-- C6: on an empty input dataset create_map emits the empty-data
warning and produces no map; no later construction step runs and the
heap is untouched. -/
theorem C6_empty_data_no_map (σ : PdState) (r : ℕ) (sel : String)
    (heat_threshold : List ℤ) (q : ℕ) (st cty : String)
    (states counties : List BoundaryRow) (zipb : Option ℤ)
    (h : (readFrame σ r).rows = []) :
    create_map σ r sel heat_threshold q st cty states counties zipb =
      (σ, Except.ok (["The data is empty. Please check your inputs."], none)) := by
  simp [create_map, h]

/-- C6 witness at a concrete input: a heap holding one empty frame. -/
theorem C6_empty_data_no_map_witness :
    create_map ⟨[emptyFrame]⟩ 0 "weighted_OVERALL_SCORE" [2, 3, 4] 80
      "Select a State" "Select a County" [] [] none =
      (⟨[emptyFrame]⟩, Except.ok
        (["The data is empty. Please check your inputs."], none)) :=
  C6_empty_data_no_map ⟨[emptyFrame]⟩ 0 "weighted_OVERALL_SCORE" [2, 3, 4] 80
    "Select a State" "Select a County" [] [] none rfl

/-! ### C7: remote resource key -/

/-- C7: for every day label of the 7-day rolling set, the remote
resource key is heat_risk_analysis_, the day label with its space
replaced by a plus sign, an underscore, the formatted current date, and
the .geoparquet extension, on the fixed bucket host. -/
theorem C7_remote_key (current_date day_num : String)
    (hd : day_num ∈ ["1", "2", "3", "4", "5", "6", "7"]) :
    build_data_url ("Day " ++ day_num) current_date =
      "https://heat-risk-dashboard.s3.amazonaws.com/heat_risk_analysis_Day+" ++
        day_num ++ "_" ++ current_date ++ ".geoparquet" := by
  fin_cases hd <;> rfl

/-- C7 witness at a concrete input. -/
theorem C7_remote_key_witness :
    build_data_url ("Day " ++ "1") "20261012" =
      "https://heat-risk-dashboard.s3.amazonaws.com/heat_risk_analysis_Day+" ++
        "1" ++ "_" ++ "20261012" ++ ".geoparquet" :=
  C7_remote_key "20261012" "1" (by decide)

/-! ### C8: indicator description lookup -/

/-- C8: get_hhi_indicator_description returns the description of the
first dictionary row matching the indicator name, and the fixed
placeholder when no row matches; the IndexError of the empty selection
is caught inside the function, so it never raises (the embedding is a
total function). -/
theorem C8_description_lookup (hhi_desc_df : List (String × String))
    (indicator_name : String) :
    (hhi_desc_df.find? (fun row => row.1 == indicator_name) = none →
      get_hhi_indicator_description hhi_desc_df indicator_name =
        "No description available for this indicator.") ∧
    (∀ row, hhi_desc_df.find? (fun row => row.1 == indicator_name) = some row →
      get_hhi_indicator_description hhi_desc_df indicator_name = row.2) := by
  induction hhi_desc_df with
  | nil => exact ⟨fun _ => rfl, fun row h => by simp at h⟩
  | cons hd tl ih =>
    by_cases hhd : hd.1 == indicator_name
    · refine ⟨fun hnone => ?_, fun row hsome => ?_⟩
      · simp [hhd] at hnone
      · simp [hhd] at hsome
        subst hsome
        simp [get_hhi_indicator_description, hhd]
    · refine ⟨fun hnone => ?_, fun row hsome => ?_⟩
      · have hb : (hd.1 == indicator_name) = false := by simpa using hhd
        simp only [List.find?_cons, hb] at hnone
        have := ih.1 hnone
        simpa [get_hhi_indicator_description, hhd] using this
      · simp [hhd] at hsome
        have := ih.2 row hsome
        simpa [get_hhi_indicator_description, hhd] using this

/-- C8 witness: both branches at concrete inputs. -/
theorem C8_description_lookup_witness :
    get_hhi_indicator_description
      [("weighted_OVERALL_SCORE", "Composite heat and health burden.")]
      "weighted_OVERALL_SCORE" = "Composite heat and health burden." ∧
    get_hhi_indicator_description
      [("weighted_OVERALL_SCORE", "Composite heat and health burden.")]
      "weighted_P_AGE65" = "No description available for this indicator." :=
  ⟨(C8_description_lookup
      [("weighted_OVERALL_SCORE", "Composite heat and health burden.")]
      "weighted_OVERALL_SCORE").2
      ("weighted_OVERALL_SCORE", "Composite heat and health burden.") rfl,
   (C8_description_lookup
      [("weighted_OVERALL_SCORE", "Composite heat and health burden.")]
      "weighted_P_AGE65").1 rfl⟩

/-! ### C10: move_column_to_front mutates in place -/

/-- C10: when the target column is present, move_column_to_front
returns the very same list object, and after the call that object holds
the target at the front followed by the remaining columns (the first
occurrence of the target removed); the caller's original ordering is
overwritten. -/
theorem C10_move_in_place (σ : PyListHeap) (r : ℕ) (column_name : String)
    (h : column_name ∈ readList σ r) :
    (move_column_to_front σ r column_name).2 = r ∧
    readList (move_column_to_front σ r column_name).1 r =
      column_name :: (readList σ r).erase column_name := by
  have hr : r < σ.lists.length := by
    by_contra hge
    rw [readList, List.getD_eq_default _ _ (Nat.le_of_not_lt hge)] at h
    simp at h
  constructor
  · simp [move_column_to_front, h]
  · simp only [move_column_to_front, if_pos h]
    simp [readList, List.getElem?_set_self hr]

/-- C10 witness at a concrete input. -/
theorem C10_move_in_place_witness :
    (move_column_to_front ⟨[["a", "weighted_OVERALL_SCORE", "b"]]⟩ 0
      "weighted_OVERALL_SCORE").2 = 0 ∧
    readList (move_column_to_front ⟨[["a", "weighted_OVERALL_SCORE", "b"]]⟩ 0
      "weighted_OVERALL_SCORE").1 0 =
      "weighted_OVERALL_SCORE" ::
        (readList ⟨[["a", "weighted_OVERALL_SCORE", "b"]]⟩ 0).erase
          "weighted_OVERALL_SCORE" :=
  C10_move_in_place ⟨[["a", "weighted_OVERALL_SCORE", "b"]]⟩ 0
    "weighted_OVERALL_SCORE" (by decide)

end HeatDashboard
